import Mathlib

/-!
Shallow embedding of the chat page component in `web/app/page.tsx`.

The embedding covers the message data model (`ChatResponse`, `Message`),
the component state (`ConvState`), the welcome fetch (`fetchWelcome`),
the question submission (`sendQuestion`, split into the phase up to the
network request and the phase after it settles), and the follow-up click
handler.  Network requests are modelled by explicit outcome values; the
impure id generator and clock are passed as an environment.
-/

namespace ChatBot

/-- Origin tag of a chat turn: the `from` field of `Message` in the source,
one of `"user" | "bot" | "system"`. -/
inductive Origin where
  | user
  | bot
  | system
deriving DecidableEq

/-- `ChatResponse` from the source: the structured JSON reply shape.
`confidence` is a JSON number, modelled as a rational; `redacted?` is an
optional boolean, modelled as `Option Bool` (absent = `none`). -/
structure ChatResponse where
  answer : Option String
  confidence : ℚ
  sources : List String
  cached : Bool
  follow_up : Option String
  redacted : Option Bool
deriving DecidableEq

/-- `Message` from the source: one chat turn.  The source field `from` is a
Lean keyword, so it is written `«from»`. -/
structure Message where
  id : String
  «from» : Origin
  text : String
  time : String
  meta : Option ChatResponse
deriving DecidableEq

/-- The component state the claims are about: the draft input (`question`),
the awaiting-response flag (`loading`), the latest error message (`error`,
`none` when cleared) and the message history (`messages`). -/
structure ConvState where
  question : String
  loading : Bool
  error : Option String
  messages : List Message
deriving DecidableEq

/-- The impure pieces of the component, passed as an environment:
`makeId` (`Date.now` plus `Math.random`, keyed by the prefix argument)
and `nowLabel` (the locale time label captured at creation). -/
structure Env where
  makeId : String → String
  nowLabel : String

/-- `pushMessage` from the source: append a message to the history
(`setMessages(prev => [...prev, msg])`). -/
def pushMessage (s : ConvState) (m : Message) : ConvState :=
  { s with messages := s.messages ++ [m] }

/-- JS `String.prototype.trim()`: strip leading and trailing whitespace.
Written over the character list so that the kernel can evaluate it. -/
def jsTrim (s : String) : String :=
  String.mk (List.reverse (List.dropWhile Char.isWhitespace
    (List.reverse (List.dropWhile Char.isWhitespace s.data))))

/-- JS string truthiness fallback `a || d`: `d` when `a` is null/undefined or
the empty string, `a` otherwise. -/
def orElseTruthy (a : Option String) (d : String) : String :=
  match a with
  | some str => if str = "" then d else str
  | none => d

/-- Outcome of the welcome GET: a 2xx response with a parsed body, a non-2xx
response (its status and body text), or a rejected fetch. -/
inductive WelcomeOutcome where
  | ok (data : ChatResponse)
  | httpErr (status : Nat) (body : String)
  | netErr (msg : String)

/-- The hardcoded fallback greeting text used when the welcome fetch fails. -/
def welcomeFallbackText : String :=
  "Hi there! I\x27m Chatty, how can I assist you today?"

/-- The metadata object attached to the fallback greeting turn. -/
def welcomeFallbackMeta : ChatResponse :=
  { answer := some welcomeFallbackText
  , confidence := 1
  , sources := []
  , cached := false
  , follow_up := none
  , redacted := none }

/-- `fetchWelcome` from the source: on a 2xx parsed reply, append a bot turn
whose text is `data.answer || 'Hi there!'` with the reply as metadata; on any
failure (non-2xx status or network error, both reaching the `catch` block)
append the hardcoded fallback bot turn instead, without setting any error. -/
def fetchWelcome (env : Env) (outcome : WelcomeOutcome) (s : ConvState) :
    ConvState :=
  match outcome with
  | WelcomeOutcome.ok data =>
      pushMessage s
        { id := env.makeId "b_"
        , «from» := Origin.bot
        , text := orElseTruthy data.answer "Hi there!"
        , time := env.nowLabel
        , meta := some data }
  | WelcomeOutcome.httpErr _ _ =>
      pushMessage s
        { id := env.makeId "b_"
        , «from» := Origin.bot
        , text := welcomeFallbackText
        , time := env.nowLabel
        , meta := some welcomeFallbackMeta }
  | WelcomeOutcome.netErr _ =>
      pushMessage s
        { id := env.makeId "b_"
        , «from» := Origin.bot
        , text := welcomeFallbackText
        , time := env.nowLabel
        , meta := some welcomeFallbackMeta }

/-- Outcome of the question POST: a 2xx response with a parsed body, a
non-2xx response (status and body text), or a rejected fetch whose error
object may lack a `message` (hence `Option String`). -/
inductive FetchOutcome where
  | ok (data : ChatResponse)
  | httpErr (status : Nat) (body : String)
  | netErr (msg : Option String)

/-- The validation message set for empty input. -/
def emptyInputError : String := "Please enter a question."

/-- The final fallback bot text on the success path. -/
def dontKnowText : String := "I don\x27t know."

/-- Phase of `sendQuestion` up to the network request: either rejected by
validation (no request issued), or suspended at the `fetch` call, carrying
the state as updated before the request and the question text sent in the
request body. -/
inductive SendPhase where
  | rejected (s : ConvState)
  | requesting (s : ConvState) (questionText : String)

/-- The first half of `sendQuestion`: resolve the effective question text
`(q ?? question).trim()`; if it is empty, set the validation error and
return without a request; otherwise clear the error, set the loading flag,
append the user turn (text = the trimmed question), clear the draft input,
and issue the request. -/
def sendQuestionStart (env : Env) (s : ConvState) (q : Option String) :
    SendPhase :=
  let questionText := jsTrim (q.getD s.question)
  if questionText = "" then
    SendPhase.rejected { s with error := some emptyInputError }
  else
    let userMsg : Message :=
      { id := env.makeId "u_"
      , «from» := Origin.user
      , text := questionText
      , time := env.nowLabel
      , meta := none }
    let s1 := { s with error := none }
    let s2 := { s1 with loading := true }
    let s3 := pushMessage s2 userMsg
    let s4 := { s3 with question := "" }
    SendPhase.requesting s4 questionText

/-- The second half of `sendQuestion`, from the settlement of the request:
on success append a bot turn with text
`data.answer ?? data.follow_up ?? "I don't know."` and the full reply as
metadata; on failure set the error message (`Server {status}: {body}` for a
non-2xx response, else the rejection message with an `"Unknown error"`
default) and append a system turn carrying it; in all cases finally clear
the loading flag. -/
def sendQuestionSettle (env : Env) (s : ConvState) (outcome : FetchOutcome) :
    ConvState :=
  match outcome with
  | FetchOutcome.ok data =>
      let botText := data.answer.getD (data.follow_up.getD dontKnowText)
      let botMsg : Message :=
        { id := env.makeId "b_"
        , «from» := Origin.bot
        , text := botText
        , time := env.nowLabel
        , meta := some data }
      let s1 := pushMessage s botMsg
      { s1 with loading := false }
  | FetchOutcome.httpErr status body =>
      let msg := "Server " ++ toString status ++ ": " ++ body
      let s1 := { s with error := some msg }
      let s2 := pushMessage s1
        { id := env.makeId "s_"
        , «from» := Origin.system
        , text := "Error: " ++ msg
        , time := env.nowLabel
        , meta := none }
      { s2 with loading := false }
  | FetchOutcome.netErr msgOpt =>
      let msg := msgOpt.getD "Unknown error"
      let s1 := { s with error := some msg }
      let s2 := pushMessage s1
        { id := env.makeId "s_"
        , «from» := Origin.system
        , text := "Error: " ++ msg
        , time := env.nowLabel
        , meta := none }
      { s2 with loading := false }

/-- `sendQuestion` from the source: the start phase followed, when a request
was issued, by the settle phase on the request's outcome. -/
def sendQuestion (env : Env) (s : ConvState) (q : Option String)
    (outcome : FetchOutcome) : ConvState :=
  match sendQuestionStart env s q with
  | SendPhase.rejected s' => s'
  | SendPhase.requesting s' _ => sendQuestionSettle env s' outcome

/-- The `question` field of the POST body issued by `sendQuestion`; `none`
when validation rejects the input and no request is made. -/
def requestQuestion (env : Env) (s : ConvState) (q : Option String) :
    Option String :=
  match sendQuestionStart env s q with
  | SendPhase.rejected _ => none
  | SendPhase.requesting _ t => some t

/-- `handleFollowUpClick` from the source: auto-send the follow-up text as
the explicit question argument. -/
def handleFollowUpClick (env : Env) (s : ConvState) (follow : String)
    (outcome : FetchOutcome) : ConvState :=
  sendQuestion env s (some follow) outcome

/-- Whether the renderer shows a follow-up suggestion button for a message:
`isBot && m.meta?.follow_up` with JS truthiness, i.e. a bot turn whose
metadata has a non-null, non-empty `follow_up`. -/
def rendersFollowUp (m : Message) : Bool :=
  (m.«from» == Origin.bot) &&
    (match m.meta with
     | some r =>
         match r.follow_up with
         | some f => f != ""
         | none => false
     | none => false)

/-! Concrete values used by the witness and counterexample theorems. -/

/-- A concrete environment. -/
def env0 : Env := { makeId := fun p => p ++ "1", nowLabel := "12:00:00" }

/-- A concrete successful reply. -/
def resp0 : ChatResponse :=
  { answer := some "42"
  , confidence := 9 / 10
  , sources := ["doc.md"]
  , cached := false
  , follow_up := some "More?"
  , redacted := none }

/-- A concrete state with a non-empty draft and a stale error. -/
def state0 : ConvState :=
  { question := "hello"
  , loading := false
  , error := some "old error"
  , messages := [] }

/-- A concrete state whose draft has surrounding whitespace. -/
def state9 : ConvState :=
  { question := " hi "
  , loading := false
  , error := none
  , messages := [] }

/-- A bot turn whose metadata carries a follow-up with surrounding
whitespace; the renderer shows a suggestion button for it. -/
def followMsg : Message :=
  { id := "b_0"
  , «from» := Origin.bot
  , text := "sure"
  , time := "11:59:00"
  , meta := some
      { answer := some "sure"
      , confidence := 1
      , sources := []
      , cached := true
      , follow_up := some " weather "
      , redacted := none } }

/-- A concrete state holding `followMsg` and an unrelated draft. -/
def state8 : ConvState :=
  { question := "draft text"
  , loading := false
  , error := none
  , messages := [followMsg] }

/-- A concrete state whose draft is whitespace-only. -/
def state4 : ConvState :=
  { question := "   "
  , loading := true
  , error := none
  , messages := [followMsg] }

/-- A concrete successful reply with a null `answer` and a non-null
`follow_up`. -/
def resp1 : ChatResponse :=
  { answer := none
  , confidence := 1 / 2
  , sources := []
  , cached := true
  , follow_up := some "Try this"
  , redacted := some false }

/-! Shared lemmas about the send phases. -/

lemma sendQuestionStart_pos (env : Env) (s : ConvState) (q : Option String)
    (h : jsTrim (q.getD s.question) ≠ "") :
    sendQuestionStart env s q = SendPhase.requesting
      { question := ""
      , loading := true
      , error := none
      , messages := s.messages ++
          [{ id := env.makeId "u_"
           , «from» := Origin.user
           , text := jsTrim (q.getD s.question)
           , time := env.nowLabel
           , meta := none }] }
      (jsTrim (q.getD s.question)) := by
  unfold sendQuestionStart pushMessage
  simp [h]

lemma sendQuestion_pos (env : Env) (s : ConvState) (q : Option String)
    (o : FetchOutcome) (h : jsTrim (q.getD s.question) ≠ "") :
    sendQuestion env s q o = sendQuestionSettle env
      { question := ""
      , loading := true
      , error := none
      , messages := s.messages ++
          [{ id := env.makeId "u_"
           , «from» := Origin.user
           , text := jsTrim (q.getD s.question)
           , time := env.nowLabel
           , meta := none }] }
      o := by
  unfold sendQuestion
  rw [sendQuestionStart_pos env s q h]

lemma sendQuestion_empty (env : Env) (s : ConvState) (q : Option String)
    (o : FetchOutcome) (h : jsTrim (q.getD s.question) = "") :
    sendQuestion env s q o = { s with error := some emptyInputError } ∧
    requestQuestion env s q = none := by
  unfold sendQuestion requestQuestion sendQuestionStart
  simp [h]

/-- The user turn appended by `sendQuestionStart` for question text `t`. -/
def userMsgOf (env : Env) (t : String) : Message :=
  { id := env.makeId "u_"
  , «from» := Origin.user
  , text := t
  , time := env.nowLabel
  , meta := none }

/-- The turn appended by `sendQuestionSettle` for a given outcome. -/
def settleMsg (env : Env) (o : FetchOutcome) : Message :=
  match o with
  | FetchOutcome.ok data =>
      { id := env.makeId "b_"
      , «from» := Origin.bot
      , text := data.answer.getD (data.follow_up.getD dontKnowText)
      , time := env.nowLabel
      , meta := some data }
  | FetchOutcome.httpErr status body =>
      { id := env.makeId "s_"
      , «from» := Origin.system
      , text := "Error: " ++ ("Server " ++ toString status ++ ": " ++ body)
      , time := env.nowLabel
      , meta := none }
  | FetchOutcome.netErr msg =>
      { id := env.makeId "s_"
      , «from» := Origin.system
      , text := "Error: " ++ msg.getD "Unknown error"
      , time := env.nowLabel
      , meta := none }

lemma sendQuestionSettle_messages (env : Env) (s : ConvState)
    (o : FetchOutcome) :
    (sendQuestionSettle env s o).messages = s.messages ++ [settleMsg env o] := by
  cases o <;> rfl

lemma sendQuestion_messages_pos (env : Env) (s : ConvState)
    (q : Option String) (o : FetchOutcome)
    (h : jsTrim (q.getD s.question) ≠ "") :
    (sendQuestion env s q o).messages
      = s.messages
          ++ [userMsgOf env (jsTrim (q.getD s.question)), settleMsg env o] := by
  rw [sendQuestion_pos env s q o h, sendQuestionSettle_messages]
  simp [userMsgOf]

/-! Claim theorems. -/

/-- C1: for every input whose trimmed form is non-empty, `sendQuestion`
appends exactly one `user` turn before the network request is issued, and
exactly one additional turn after the request settles — a `bot` turn if it
succeeds, a `system` turn if it fails — never zero and never two. -/
theorem claim1_submit_turn_counts (env : Env) (s : ConvState)
    (q : Option String) (o : FetchOutcome)
    (h : jsTrim (q.getD s.question) ≠ "") :
    (∃ s' t u, sendQuestionStart env s q = SendPhase.requesting s' t ∧
        s'.messages = s.messages ++ [u] ∧ u.«from» = Origin.user) ∧
    (∃ u m2, (sendQuestion env s q o).messages = s.messages ++ [u, m2] ∧
        u.«from» = Origin.user ∧
        m2.«from» = (match o with
          | FetchOutcome.ok _ => Origin.bot
          | FetchOutcome.httpErr _ _ => Origin.system
          | FetchOutcome.netErr _ => Origin.system)) := by
  refine ⟨⟨_, _, _, sendQuestionStart_pos env s q h, rfl, rfl⟩,
    userMsgOf env (jsTrim (q.getD s.question)), settleMsg env o,
    sendQuestion_messages_pos env s q o h, rfl, ?_⟩
  cases o <;> rfl

/-- Witness for C1 at a concrete state, question and outcome. -/
theorem claim1_submit_turn_counts_witness :
    (∃ s' t u, sendQuestionStart env0 state0 none = SendPhase.requesting s' t ∧
        s'.messages = state0.messages ++ [u] ∧ u.«from» = Origin.user) ∧
    (∃ u m2,
        (sendQuestion env0 state0 none (FetchOutcome.ok resp0)).messages
          = state0.messages ++ [u, m2] ∧
        u.«from» = Origin.user ∧
        m2.«from» = (match FetchOutcome.ok resp0 with
          | FetchOutcome.ok _ => Origin.bot
          | FetchOutcome.httpErr _ _ => Origin.system
          | FetchOutcome.netErr _ => Origin.system)) :=
  claim1_submit_turn_counts env0 state0 none (FetchOutcome.ok resp0)
    (by decide)

/-- C2: on a successful submission, the appended bot turn's text is the
reply's `answer` when non-null, else its `follow_up` when non-null, else the
literal `"I don't know."`; the full reply is the turn's metadata in all
three cases. -/
theorem claim2_success_bot_text (env : Env) (s : ConvState)
    (q : Option String) (data : ChatResponse)
    (h : jsTrim (q.getD s.question) ≠ "") :
    ∃ u b, (sendQuestion env s q (FetchOutcome.ok data)).messages
        = s.messages ++ [u, b] ∧
      b.«from» = Origin.bot ∧
      b.text = (match data.answer with
        | some a => a
        | none =>
            match data.follow_up with
            | some f => f
            | none => "I don\x27t know.") ∧
      b.meta = some data := by
  refine ⟨userMsgOf env (jsTrim (q.getD s.question)),
    settleMsg env (FetchOutcome.ok data),
    sendQuestion_messages_pos env s q (FetchOutcome.ok data) h, rfl, ?_, rfl⟩
  show Option.getD data.answer (Option.getD data.follow_up dontKnowText) = _
  cases data.answer with
  | some a => rfl
  | none =>
      cases data.follow_up with
      | some f => rfl
      | none => rfl

/-- Witness for C2 at a reply with a null `answer` and a non-null
`follow_up`. -/
theorem claim2_success_bot_text_witness :
    ∃ u b, (sendQuestion env0 state0 none (FetchOutcome.ok resp1)).messages
        = state0.messages ++ [u, b] ∧
      b.«from» = Origin.bot ∧
      b.text = (match resp1.answer with
        | some a => a
        | none =>
            match resp1.follow_up with
            | some f => f
            | none => "I don\x27t know.") ∧
      b.meta = some resp1 :=
  claim2_success_bot_text env0 state0 none resp1 (by decide)

/-- C3: when the greeting fetch fails — non-2xx status or network error —
the appended turn is a `bot` turn with the fixed fallback greeting text and
metadata `confidence = 1.0`, `sources = []`, `cached = false`,
`follow_up = null`; no error is surfaced and the rest of the state is
untouched. -/
theorem claim3_welcome_fallback (env : Env) (s : ConvState) (status : Nat)
    (body msg : String) :
    (∃ m, (fetchWelcome env (WelcomeOutcome.httpErr status body) s).messages
        = s.messages ++ [m] ∧
      m.«from» = Origin.bot ∧ m.text = welcomeFallbackText ∧
      m.meta = some
        { answer := some welcomeFallbackText
        , confidence := 1
        , sources := []
        , cached := false
        , follow_up := none
        , redacted := none }) ∧
    (∃ m, (fetchWelcome env (WelcomeOutcome.netErr msg) s).messages
        = s.messages ++ [m] ∧
      m.«from» = Origin.bot ∧ m.text = welcomeFallbackText ∧
      m.meta = some
        { answer := some welcomeFallbackText
        , confidence := 1
        , sources := []
        , cached := false
        , follow_up := none
        , redacted := none }) ∧
    (fetchWelcome env (WelcomeOutcome.httpErr status body) s).error = s.error ∧
    (fetchWelcome env (WelcomeOutcome.httpErr status body) s).loading
      = s.loading ∧
    (fetchWelcome env (WelcomeOutcome.netErr msg) s).error = s.error ∧
    (fetchWelcome env (WelcomeOutcome.netErr msg) s).loading = s.loading := by
  refine ⟨⟨_, rfl, rfl, rfl, rfl⟩, ⟨_, rfl, rfl, rfl, rfl⟩, rfl, rfl, rfl, rfl⟩

/-- C4: for an input whose trimmed form is empty, `sendQuestion` only sets
the validation error — it appends no turn, leaves the loading flag and the
draft untouched, and issues no network request. -/
theorem claim4_empty_input (env : Env) (s : ConvState) (q : Option String)
    (o : FetchOutcome) (h : jsTrim (q.getD s.question) = "") :
    sendQuestion env s q o = { s with error := some emptyInputError } ∧
    requestQuestion env s q = none :=
  sendQuestion_empty env s q o h

/-- Witness for C4 at a whitespace-only draft. -/
theorem claim4_empty_input_witness :
    sendQuestion env0 state4 none (FetchOutcome.ok resp0)
      = { state4 with error := some emptyInputError } ∧
    requestQuestion env0 state4 none = none :=
  claim4_empty_input env0 state4 none (FetchOutcome.ok resp0) (by decide)

/-- C5: the message store is append-only — every operation leaves the
existing list of turns as an unchanged prefix and only appends after it,
so insertion order is preserved and no existing turn is edited, removed or
reordered. -/
theorem claim5_append_only (env : Env) (s : ConvState) (m : Message)
    (w : WelcomeOutcome) (q : Option String) (o : FetchOutcome) (f : String) :
    (pushMessage s m).messages = s.messages ++ [m] ∧
    (∃ t, (fetchWelcome env w s).messages = s.messages ++ t) ∧
    (∃ t, (sendQuestion env s q o).messages = s.messages ++ t) ∧
    (∃ t, (handleFollowUpClick env s f o).messages = s.messages ++ t) := by
  refine ⟨rfl, ?_, ?_, ?_⟩
  · cases w with
    | ok data => exact ⟨_, rfl⟩
    | httpErr status body => exact ⟨_, rfl⟩
    | netErr msg => exact ⟨_, rfl⟩
  · by_cases h : jsTrim (q.getD s.question) = ""
    · refine ⟨[], ?_⟩
      rw [(sendQuestion_empty env s q o h).left]
      simp
    · exact ⟨[userMsgOf env (jsTrim (q.getD s.question)), settleMsg env o],
        sendQuestion_messages_pos env s q o h⟩
  · by_cases h : jsTrim ((some f).getD s.question) = ""
    · refine ⟨[], ?_⟩
      unfold handleFollowUpClick
      rw [(sendQuestion_empty env s (some f) o h).left]
      simp
    · exact ⟨[userMsgOf env (jsTrim ((some f).getD s.question)),
        settleMsg env o],
        sendQuestion_messages_pos env s (some f) o h⟩

/-- C6: when a submission fails, the error message — `Server {status}:
{body}` for a non-2xx response, the underlying network error message
otherwise — is stored as the standalone error indicator, and the appended
`system` turn's text displays the same message (with the `"Error: "`
label). -/
theorem claim6_failure_surfacing (env : Env) (s : ConvState)
    (q : Option String) (status : Nat) (body emsg : String)
    (h : jsTrim (q.getD s.question) ≠ "") :
    ((sendQuestion env s q (FetchOutcome.httpErr status body)).error
        = some ("Server " ++ toString status ++ ": " ++ body) ∧
      ∃ u m,
        (sendQuestion env s q (FetchOutcome.httpErr status body)).messages
          = s.messages ++ [u, m] ∧
        m.«from» = Origin.system ∧
        m.text = "Error: " ++ ("Server " ++ toString status ++ ": " ++ body)) ∧
    ((sendQuestion env s q (FetchOutcome.netErr (some emsg))).error
        = some emsg ∧
      ∃ u m,
        (sendQuestion env s q (FetchOutcome.netErr (some emsg))).messages
          = s.messages ++ [u, m] ∧
        m.«from» = Origin.system ∧
        m.text = "Error: " ++ emsg) := by
  constructor
  · refine ⟨?_, userMsgOf env (jsTrim (q.getD s.question)),
      settleMsg env (FetchOutcome.httpErr status body),
      sendQuestion_messages_pos env s q (FetchOutcome.httpErr status body) h,
      rfl, rfl⟩
    rw [sendQuestion_pos env s q (FetchOutcome.httpErr status body) h]
    rfl
  · refine ⟨?_, userMsgOf env (jsTrim (q.getD s.question)),
      settleMsg env (FetchOutcome.netErr (some emsg)),
      sendQuestion_messages_pos env s q (FetchOutcome.netErr (some emsg)) h,
      rfl, rfl⟩
    rw [sendQuestion_pos env s q (FetchOutcome.netErr (some emsg)) h]
    rfl

/-- Witness for C6 at a concrete HTTP failure and a concrete network
failure. -/
theorem claim6_failure_surfacing_witness :
    ((sendQuestion env0 state0 none (FetchOutcome.httpErr 500 "boom")).error
        = some ("Server " ++ toString 500 ++ ": " ++ "boom") ∧
      ∃ u m,
        (sendQuestion env0 state0 none
            (FetchOutcome.httpErr 500 "boom")).messages
          = state0.messages ++ [u, m] ∧
        m.«from» = Origin.system ∧
        m.text = "Error: " ++ ("Server " ++ toString 500 ++ ": " ++ "boom")) ∧
    ((sendQuestion env0 state0 none
          (FetchOutcome.netErr (some "Failed to fetch"))).error
        = some "Failed to fetch" ∧
      ∃ u m,
        (sendQuestion env0 state0 none
            (FetchOutcome.netErr (some "Failed to fetch"))).messages
          = state0.messages ++ [u, m] ∧
        m.«from» = Origin.system ∧
        m.text = "Error: " ++ "Failed to fetch") :=
  claim6_failure_surfacing env0 state0 none 500 "boom" "Failed to fetch"
    (by decide)

/-- C7: for every submission that issues a request, the loading flag is set
and any prior error is cleared in the state at the request, and the loading
flag is cleared once the request settles, whatever the outcome. -/
theorem claim7_loading_lifecycle (env : Env) (s : ConvState)
    (q : Option String) (o : FetchOutcome)
    (h : jsTrim (q.getD s.question) ≠ "") :
    (∃ s' t, sendQuestionStart env s q = SendPhase.requesting s' t ∧
        s'.loading = true ∧ s'.error = none) ∧
    (sendQuestion env s q o).loading = false := by
  refine ⟨⟨_, _, sendQuestionStart_pos env s q h, rfl, rfl⟩, ?_⟩
  rw [sendQuestion_pos env s q o h]
  cases o <;> rfl

/-- Witness for C7 at a concrete state and a failing outcome. -/
theorem claim7_loading_lifecycle_witness :
    (∃ s' t, sendQuestionStart env0 state0 none = SendPhase.requesting s' t ∧
        s'.loading = true ∧ s'.error = none) ∧
    (sendQuestion env0 state0 none (FetchOutcome.netErr none)).loading
      = false :=
  claim7_loading_lifecycle env0 state0 none (FetchOutcome.netErr none)
    (by decide)

/-- C8 (counterexample): the suggestion text `" weather "` is rendered as a
follow-up button, yet clicking it issues a request whose question is the
trimmed `"weather"`, not `" weather "` — so the effective question does not
always equal the suggestion's text. -/
theorem claim8_counterexample :
    rendersFollowUp followMsg = true ∧
    requestQuestion env0 state8 (some " weather ") = some "weather" ∧
    (some "weather" : Option String) ≠ some " weather " := by
  refine ⟨by decide, by decide, by decide⟩

/-- C8 (amended): activating a follow-up suggestion with text `Y` issues a
request whose question is the trimmed form of `Y` — equal to `Y` whenever
`Y` carries no surrounding whitespace — independent of the current draft
input, and issues no request when `Y` trims to empty. -/
theorem claim8_follow_up_request (env : Env) (s s' : ConvState) (y : String) :
    requestQuestion env s (some y)
      = (if jsTrim y = "" then none else some (jsTrim y)) ∧
    requestQuestion env s (some y) = requestQuestion env s' (some y) := by
  have key : ∀ st : ConvState, requestQuestion env st (some y)
      = (if jsTrim y = "" then none else some (jsTrim y)) := by
    intro st
    by_cases h : jsTrim y = ""
    · rw [if_pos h]
      exact (sendQuestion_empty env st (some y)
        (FetchOutcome.netErr none) h).right
    · rw [if_neg h]
      unfold requestQuestion
      rw [sendQuestionStart_pos env st (some y) h]
      rfl
  exact ⟨key s, (key s).trans (key s').symm⟩

/-- C9 (counterexample): with the draft `" hi "`, the appended `user` turn
stores `"hi"`, not the verbatim input `" hi "`. -/
theorem claim9_counterexample :
    state9.question = " hi " ∧
    (sendQuestion env0 state9 none (FetchOutcome.ok resp0)).messages.map
        Message.text = ["hi", "42"] ∧
    ("hi" : String) ≠ " hi " := by
  refine ⟨rfl, by decide, by decide⟩

/-- C9 (amended): every `user` turn appended by `sendQuestion` stores the
trimmed form of the effective input. -/
theorem claim9_user_text_trimmed (env : Env) (s : ConvState)
    (q : Option String) (o : FetchOutcome)
    (h : jsTrim (q.getD s.question) ≠ "") :
    ∃ u rest, (sendQuestion env s q o).messages = s.messages ++ u :: rest ∧
      u.«from» = Origin.user ∧ u.text = jsTrim (q.getD s.question) :=
  ⟨userMsgOf env (jsTrim (q.getD s.question)), [settleMsg env o],
    sendQuestion_messages_pos env s q o h, rfl, rfl⟩

/-- Witness for the amended C9 at the `" hi "` draft. -/
theorem claim9_user_text_trimmed_witness :
    ∃ u rest,
      (sendQuestion env0 state9 none (FetchOutcome.ok resp0)).messages
        = state9.messages ++ u :: rest ∧
      u.«from» = Origin.user ∧
      u.text = jsTrim ((none : Option String).getD state9.question) :=
  claim9_user_text_trimmed env0 state9 none (FetchOutcome.ok resp0)
    (by decide)

/-- C10: on a successful greeting fetch, the appended bot turn's text is the
reply's `answer` when it is a non-null, non-empty string, and the literal
`"Hi there!"` otherwise; the full reply is the turn's metadata. -/
theorem claim10_welcome_success_text (env : Env) (s : ConvState)
    (data : ChatResponse) :
    ∃ m, (fetchWelcome env (WelcomeOutcome.ok data) s).messages
        = s.messages ++ [m] ∧
      m.«from» = Origin.bot ∧
      m.text = (match data.answer with
        | some a => if a = "" then "Hi there!" else a
        | none => "Hi there!") ∧
      m.meta = some data := by
  refine ⟨_, rfl, rfl, ?_, rfl⟩
  show orElseTruthy data.answer "Hi there!" = _
  cases data.answer with
  | some a => rfl
  | none => rfl

end ChatBot
